import Mathlib

/-!
Verification of the conversation-routing and connection-registry layer of the
w3rk service: a shallow embedding of the registry in
`src/services/websocket_manager.py`, the conversation models in
`src/models/agent_models.py`, and the agent dispatch in `src/main.py`.

Modelling conventions:
* The wall clock (`datetime.now()`) is an explicit `now : Nat` argument to
  every operation; all clock reads inside one operation see the same instant.
* A duplex handle (`WebSocket`) is modelled by a script of outcomes for its
  successive `send_text` calls; an exhausted script means every further write
  succeeds.  The transport handshake (`accept`) is modelled as succeeding.
* The dict payloads the registry builds are flattened into the `Message`
  structure, keeping exactly the keys the registry itself reads or writes
  (`timestamp`, `queued_at`, `delivered_from_queue`, `broadcast`, plus the
  payload of the queued-count system notification).
* Successful `send_text` calls are recorded on an observation trace `wire`;
  this is the model of the frames a peer receives, in order.
-/

/-- Outcome of one `send_text` attempt on a duplex handle: success, a
`WebSocketDisconnect` exception, or any other exception. -/
inductive SendOutcome where
  | ok
  | disconnected
  | failure
deriving DecidableEq, Repr

/-- A wire payload as the registry manipulates it.  `mtype` is the `type` key;
`ntype`/`count` flatten the nested notification payload; `body` stands for the
free-form textual content of the dict. -/
structure Message where
  mtype : String := ""
  ntype : String := ""
  body : String := ""
  count : Option Nat := none
  user_address : Option String := none
  timestamp : Option Nat := none
  queued_at : Option Nat := none
  delivered_from_queue : Bool := false
  broadcast : Bool := false
deriving DecidableEq, Repr

/-- A live duplex handle: the scripted outcomes of its future writes. -/
structure WS where
  script : List SendOutcome := []
deriving DecidableEq, Repr

/-- Per-identity connection metadata (`connection_metadata[user]`). -/
structure ConnectionMeta where
  connected_at : Nat := 0
  last_activity : Nat := 0
  messages_sent : Nat := 0
  messages_received : Nat := 0
  disconnected_at : Option Nat := none
deriving DecidableEq, Repr

/-- Association-list lookup; Python dict access on string keys. -/
def assocLookup {α : Type} : List (String × α) → String → Option α
  | [], _ => none
  | p :: rest, k => if p.1 = k then some p.2 else assocLookup rest k

/-- Association-list update-or-insert with Python dict semantics: an existing
key keeps its position, a fresh key is appended at the end. -/
def assocSet {α : Type} : List (String × α) → String → α → List (String × α)
  | [], k, v => [(k, v)]
  | p :: rest, k, v => if p.1 = k then (k, v) :: rest else p :: assocSet rest k v

/-- Association-list removal (`del d[k]`). -/
def assocRemove {α : Type} : List (String × α) → String → List (String × α)
  | [], _ => []
  | p :: rest, k => if p.1 = k then rest else p :: assocRemove rest k

/-- The registry state (`class WebSocketManager`): live handles, metadata,
offline queues, conversation tracking and the statistics counters, plus the
`wire` observation trace of successfully written frames. -/
structure WebSocketManager where
  connections : List (String × WS) := []
  connection_metadata : List (String × ConnectionMeta) := []
  message_queues : List (String × List Message) := []
  conversations : List (String × List String) := []
  total_connections : Nat := 0
  active_connections : Int := 0
  messages_sent : Nat := 0
  messages_received : Nat := 0
  wire : List (String × Message) := []
deriving DecidableEq, Repr

/-- Pop the next scripted outcome of a handle; an empty script writes
successfully forever. -/
def popScript : List SendOutcome → SendOutcome × List SendOutcome
  | [] => (SendOutcome.ok, [])
  | o :: rest => (o, rest)

/-- `websocket.send_text` on the handle registered for `u`: consumes the next
scripted outcome and, on success, records the frame on the wire. -/
def WebSocketManager.sendText (st : WebSocketManager) (u : String) (m : Message) :
    WebSocketManager × SendOutcome :=
  match assocLookup st.connections u with
  | none => (st, SendOutcome.failure)
  | some ws =>
    let p := popScript ws.script
    let st1 := {st with connections := assocSet st.connections u {script := p.2}}
    match p.1 with
    | SendOutcome.ok => ({st1 with wire := st1.wire ++ [(u, m)]}, SendOutcome.ok)
    | o => (st1, o)

/-- Core of `_queue_message_for_user`: tag the message with `queued_at`,
append, and when the queue exceeds 100 entries keep only the newest 100
(Python `queue[-100:]`). -/
def queueAppend (q : List Message) (m : Message) (now : Nat) : List Message :=
  let q1 := q ++ [{m with queued_at := some now}]
  if 100 < q1.length then q1.drop (q1.length - 100) else q1

/-- `_queue_message_for_user`: ensure a queue exists for `u`, then append under
the 100-entry bound. -/
def WebSocketManager.queue_message_for_user (st : WebSocketManager) (u : String)
    (m : Message) (now : Nat) : WebSocketManager :=
  let q := (assocLookup st.message_queues u).getD []
  {st with message_queues := assocSet st.message_queues u (queueAppend q m now)}

/-- `disconnect`: when a live handle exists, remove it, decrement the active
counter and stamp `disconnected_at` on the retained metadata; otherwise do
nothing. -/
def WebSocketManager.disconnect (st : WebSocketManager) (u : String) (now : Nat) :
    WebSocketManager :=
  if (assocLookup st.connections u).isSome then
    let st1 := {st with connections := assocRemove st.connections u,
                        active_connections := st.active_connections - 1}
    match assocLookup st1.connection_metadata u with
    | some meta =>
      let meta1 := {meta with disconnected_at := some now}
      {st1 with connection_metadata := assocSet st1.connection_metadata u meta1}
    | none => st1
  else st

/-- `send_message_to_user`: write to the live handle when present (stamping a
delivery timestamp, updating counters); on a `WebSocketDisconnect` perform an
implicit disconnect and requeue the stamped envelope; on any other write error
just report failure; with no live handle, queue the envelope. -/
def WebSocketManager.send_message_to_user (st : WebSocketManager) (u : String)
    (m : Message) (now : Nat) : WebSocketManager × Bool :=
  if (assocLookup st.connections u).isSome then
    let m1 := {m with timestamp := some now}
    let r := st.sendText u m1
    match r.2 with
    | SendOutcome.ok =>
      let st2 := {r.1 with messages_sent := r.1.messages_sent + 1}
      let st3 :=
        match assocLookup st2.connection_metadata u with
        | some meta =>
          let meta1 := {meta with messages_sent := meta.messages_sent + 1, last_activity := now}
          {st2 with connection_metadata := assocSet st2.connection_metadata u meta1}
        | none => st2
      (st3, true)
    | SendOutcome.disconnected =>
      let st2 := (r.1).disconnect u now
      (st2.queue_message_for_user u m1 now, false)
    | SendOutcome.failure => (r.1, false)
  else
    (st.queue_message_for_user u m now, false)

/-- The loop body of `broadcast_to_all`, iterating over a snapshot of the
connection map: skip excluded identities, count successful writes, collect
identities whose write raised. -/
def WebSocketManager.broadcastLoop (m : Message) (exclude : List String) :
    List (String × WS) → WebSocketManager → Nat → List String →
    WebSocketManager × Nat × List String
  | [], st, sent, failed => (st, sent, failed)
  | p :: rest, st, sent, failed =>
    if p.1 ∈ exclude then WebSocketManager.broadcastLoop m exclude rest st sent failed
    else
      let r := st.sendText p.1 m
      match r.2 with
      | SendOutcome.ok =>
        WebSocketManager.broadcastLoop m exclude rest r.1 (sent + 1) failed
      | _ =>
        WebSocketManager.broadcastLoop m exclude rest r.1 sent (failed ++ [p.1])

/-- `broadcast_to_all`: stamp the envelope, write it to every non-excluded live
connection, then disconnect every identity whose write failed; returns the
count of successful deliveries. -/
def WebSocketManager.broadcast_to_all (st : WebSocketManager) (m : Message)
    (exclude : List String) (now : Nat) : WebSocketManager × Nat :=
  let m1 := {m with timestamp := some now, broadcast := true}
  let r := WebSocketManager.broadcastLoop m1 exclude st.connections st 0 []
  let st2 := r.2.2.foldl (fun s u => s.disconnect u now) r.1
  (st2, r.2.1)

/-- `send_system_notification`: wrap a notification payload in a
`system_notification` envelope and send it. -/
def WebSocketManager.send_system_notification (st : WebSocketManager) (u : String)
    (n : Message) (now : Nat) : WebSocketManager × Bool :=
  st.send_message_to_user u {n with mtype := "system_notification"} now

/-- The queued-count notification payload built by `_deliver_queued_messages`. -/
def queuedNotification (n : Nat) : Message :=
  {ntype := "queued_messages", count := some n,
   body := "You have " ++ toString n ++ " unread messages"}

/-- The welcome payload of `_send_welcome_message`. -/
def welcomeMessage (u : String) (now : Nat) : Message :=
  {mtype := "connection_established", body := "Welcome to W3RK Platform!",
   user_address := some u, timestamp := some now}

/-- The delivery loop of `_deliver_queued_messages`.  The Python loop iterates
over the queue list object itself while `send_message_to_user` may append to
that same object (a failed delivery requeues into `message_queues[u]`, which is
the iterated list until a size-bound truncation rebinds the map entry to a new
list).  `pending` is the not-yet-visited suffix of the iterated list and
`aliased` records whether the map entry is still the iterated object: while it
is, an element appended to the queue also extends the iteration, and an append
that triggers the 100-entry truncation breaks the alias.  `fuel` dominates the
number of iterations, which is bounded by the iterated list's final length. -/
def WebSocketManager.deliverLoop (u : String) (now : Nat) :
    Nat → WebSocketManager → List Message → Bool → WebSocketManager
  | 0, st, _, _ => st
  | _ + 1, st, [], _ => st
  | fuel + 1, st, m :: rest, aliased =>
    let m1 := {m with delivered_from_queue := true}
    let prevQ := (assocLookup st.message_queues u).getD []
    let r := st.send_message_to_user u m1 now
    let newQ := (assocLookup r.1.message_queues u).getD []
    if newQ = prevQ then
      WebSocketManager.deliverLoop u now fuel r.1 rest aliased
    else if aliased then
      WebSocketManager.deliverLoop u now fuel r.1 (rest ++ [newQ.getLastD m1])
        (decide (newQ.length = prevQ.length + 1))
    else
      WebSocketManager.deliverLoop u now fuel r.1 rest false

/-- `_deliver_queued_messages`: nothing to do without a non-empty queue;
otherwise announce the queued count, deliver the queued envelopes one by one
(each flagged `delivered_from_queue`), and finally clear the queue. -/
def WebSocketManager.deliver_queued_messages (st : WebSocketManager) (u : String)
    (now : Nat) : WebSocketManager :=
  match assocLookup st.message_queues u with
  | none => st
  | some q =>
    if q = [] then st
    else
      let r := st.send_system_notification u (queuedNotification q.length) now
      let q1 := (assocLookup r.1.message_queues u).getD []
      let pending := if q1 = q then q else q ++ [q1.getLastD {}]
      let aliased := if q1 = q then true else decide (q1.length = q.length + 1)
      let st2 := WebSocketManager.deliverLoop u now (pending.length + 102) r.1 pending aliased
      {st2 with message_queues := assocSet st2.message_queues u []}

/-- `connect`: register the handle (overwriting any prior one), reinitialize
metadata, ensure conversation tracking, bump the statistics, send the welcome
frame directly on the handle, then flush the offline queue.  A failed welcome
write is logged and re-raised, modelled by the `Except.error` branch carrying
the state mutated so far. -/
def WebSocketManager.connect (st : WebSocketManager) (ws : WS) (u : String)
    (now : Nat) : Except WebSocketManager WebSocketManager :=
  let st1 := {st with connections := assocSet st.connections u ws}
  let meta0 : ConnectionMeta := {connected_at := now, last_activity := now}
  let st2 := {st1 with connection_metadata := assocSet st1.connection_metadata u meta0}
  let st3 :=
    if (assocLookup st2.conversations u).isSome then st2
    else {st2 with conversations := assocSet st2.conversations u []}
  let st4 := {st3 with total_connections := st3.total_connections + 1,
                       active_connections := st3.active_connections + 1}
  let r := st4.sendText u (welcomeMessage u now)
  match r.2 with
  | SendOutcome.ok => Except.ok ((r.1).deliver_queued_messages u now)
  | _ => Except.error r.1

/-! ### Conversation models (`src/models/agent_models.py`) and the agent
dispatch of `src/main.py`. -/

/-- The `AgentType` enumeration of valid agent-type tags. -/
inductive AgentType where
  | career_advisor
  | skills_analyzer
  | network_connector
  | opportunity_matcher
  | profile_analyzer
deriving DecidableEq, Repr

/-- Pydantic coercion of a string into `AgentType`: the enum lookup that
validates `agent_type` fields, `none` meaning a `ValidationError`. -/
def AgentType.ofString (s : String) : Option AgentType :=
  if s = "career_advisor" then some AgentType.career_advisor
  else if s = "skills_analyzer" then some AgentType.skills_analyzer
  else if s = "network_connector" then some AgentType.network_connector
  else if s = "opportunity_matcher" then some AgentType.opportunity_matcher
  else if s = "profile_analyzer" then some AgentType.profile_analyzer
  else none

/-- The `MessageType` enumeration. -/
inductive MessageType where
  | text
  | file_upload
  | skill_extraction
  | career_analysis
  | network_recommendation
  | opportunity_match
  | profile_update
  | system
deriving DecidableEq, Repr

/-- The `ConversationStatus` enumeration. -/
inductive ConversationStatus where
  | active
  | paused
  | completed
  | error
deriving DecidableEq, Repr

/-- `AgentMessage`: a message in a conversation.  Free-form dict metadata is
modelled as a string association list; timestamps as logical instants. -/
structure AgentMessage where
  id : String
  conversation_id : String
  agent_type : AgentType
  agent_address : String
  message_type : MessageType
  content : String
  metadata : List (String × String) := []
  attachments : List String := []
  timestamp : Nat := 0
  processed : Bool := false
deriving DecidableEq, Repr

/-- `AgentResponse`: an agent's structured response.  Fractional scores are
modelled as rationals. -/
structure AgentResponse where
  message_id : String
  agent_type : AgentType
  response_content : String
  analysis_results : List (String × String) := []
  action_items : List String := []
  contract_updates : List (List (String × String)) := []
  confidence_score : ℚ := 0
  processing_time : ℚ
  timestamp : Nat := 0
deriving DecidableEq, Repr

/-- `ConversationSession`: a conversation with its ordered message and
response histories. -/
structure ConversationSession where
  id : String
  user_address : String
  session_type : String
  status : ConversationStatus := ConversationStatus.active
  active_agents : List AgentType := []
  messages : List AgentMessage := []
  responses : List AgentResponse := []
  context : List (String × String) := []
  goals : List String := []
  achievements : List String := []
  created_at : Nat := 0
  last_activity : Nat := 0
  duration_minutes : Nat := 0
deriving DecidableEq, Repr

/-- A fresh session as pydantic constructs one: empty histories, `active`
status. -/
def ConversationSession.new (id user_address session_type : String)
    (created : Nat) : ConversationSession :=
  {id := id, user_address := user_address, session_type := session_type,
   created_at := created, last_activity := created}

/-- `ConversationSession.add_message`: append the message, refresh
last-activity. -/
def ConversationSession.add_message (s : ConversationSession) (m : AgentMessage)
    (now : Nat) : ConversationSession :=
  {s with messages := s.messages ++ [m], last_activity := now}

/-- `ConversationSession.add_response`: append the response, refresh
last-activity. -/
def ConversationSession.add_response (s : ConversationSession) (r : AgentResponse)
    (now : Nat) : ConversationSession :=
  {s with responses := s.responses ++ [r], last_activity := now}

/-- `ConversationSession.get_messages_by_agent`: the ordered sub-sequence of
messages whose agent-type tag matches. -/
def ConversationSession.get_messages_by_agent (s : ConversationSession)
    (t : AgentType) : List AgentMessage :=
  s.messages.filter (fun m => decide (m.agent_type = t))

/-- `ConversationSession.get_latest_message`: the most recently appended
message, or `none` for an empty session. -/
def ConversationSession.get_latest_message (s : ConversationSession) :
    Option AgentMessage :=
  s.messages.getLast?

/-- `AgentCoordinator.route_message_to_agent` of `src/main.py`: builds a mock
`AgentResponse` with confidence 0.85 for the given tag; constructing the
response coerces the tag string into the `AgentType` enum, so a tag outside
the enumeration raises a `ValidationError`, modelled by `Except.error`. -/
def AgentCoordinator.route_message_to_agent (agent_type : String)
    (message : AgentMessage) : Except String AgentResponse :=
  match AgentType.ofString agent_type with
  | none => Except.error ("ValidationError: invalid agent_type " ++ agent_type)
  | some t => Except.ok
      {message_id := message.id,
       agent_type := t,
       response_content := "Mock response from " ++ agent_type,
       analysis_results := [("mock", "analysis")],
       action_items := ["Mock action item"],
       confidence_score := 85 / 100,
       processing_time := 1 / 2}

/-! ### Association-list lemmas -/

theorem assocLookup_set_self {α : Type} (l : List (String × α)) (k : String) (v : α) :
    assocLookup (assocSet l k v) k = some v := by
  induction l with
  | nil => simp [assocSet, assocLookup]
  | cons p rest ih =>
    by_cases h : p.1 = k
    · simp [assocSet, assocLookup, h]
    · simp [assocSet, assocLookup, h, ih]

theorem assocLookup_set_ne {α : Type} (l : List (String × α)) (k k2 : String) (v : α)
    (h : k2 ≠ k) : assocLookup (assocSet l k v) k2 = assocLookup l k2 := by
  induction l with
  | nil => simp [assocSet, assocLookup, Ne.symm h]
  | cons p rest ih =>
    by_cases hp : p.1 = k
    · simp [assocSet, assocLookup, hp, Ne.symm h]
    · simp [assocSet, assocLookup, hp, ih]

theorem assocLookup_isSome_iff {α : Type} (l : List (String × α)) (k : String) :
    (assocLookup l k).isSome = true ↔ k ∈ l.map Prod.fst := by
  induction l with
  | nil => simp [assocLookup]
  | cons p rest ih =>
    by_cases hp : p.1 = k
    · simp [assocLookup, hp]
    · simp [assocLookup, hp, ih, Ne.symm hp]

theorem assocLookup_eq_none_of_not_mem {α : Type} (l : List (String × α)) (k : String)
    (h : k ∉ l.map Prod.fst) : assocLookup l k = none := by
  induction l with
  | nil => rfl
  | cons p rest ih =>
    simp only [List.map_cons, List.mem_cons] at h
    push_neg at h
    simp [assocLookup, Ne.symm h.1, ih h.2]

theorem assocSet_keys {α : Type} (l : List (String × α)) (k : String) (v : α)
    (h : (assocLookup l k).isSome = true) :
    (assocSet l k v).map Prod.fst = l.map Prod.fst := by
  induction l with
  | nil => simp [assocLookup] at h
  | cons p rest ih =>
    by_cases hp : p.1 = k
    · simp [assocSet, hp]
    · simp only [assocLookup, hp, if_false, if_neg hp] at h
      simp [assocSet, hp, ih h]

theorem assocLookup_of_mem_nodup {α : Type} (l : List (String × α)) (p : String × α)
    (hnd : (l.map Prod.fst).Nodup) (hm : p ∈ l) : assocLookup l p.1 = some p.2 := by
  induction l with
  | nil => cases hm
  | cons q rest ih =>
    rcases List.mem_cons.mp hm with h | hm2
    · subst h; simp [assocLookup]
    · have hnd2 := List.nodup_cons.mp hnd
      have hq : q.1 ≠ p.1 := by
        intro he
        exact hnd2.1 (he ▸ List.mem_map_of_mem Prod.fst hm2)
      simp [assocLookup, hq, ih hnd2.2 hm2]

theorem assocRemove_lookup_self {α : Type} (l : List (String × α)) (k : String)
    (hnd : (l.map Prod.fst).Nodup) : assocLookup (assocRemove l k) k = none := by
  induction l with
  | nil => rfl
  | cons p rest ih =>
    have hnd2 := List.nodup_cons.mp hnd
    by_cases hp : p.1 = k
    · simp only [assocRemove, hp, if_true, if_pos rfl]
      exact assocLookup_eq_none_of_not_mem rest k (hp ▸ hnd2.1)
    · simp [assocRemove, assocLookup, hp, ih hnd2.2]

theorem assocRemove_lookup_ne {α : Type} (l : List (String × α)) (k k2 : String)
    (h : k2 ≠ k) : assocLookup (assocRemove l k) k2 = assocLookup l k2 := by
  induction l with
  | nil => rfl
  | cons p rest ih =>
    by_cases hp : p.1 = k
    · simp [assocRemove, assocLookup, hp, Ne.symm h]
    · simp [assocRemove, assocLookup, hp, ih]

/-! ### Claim theorems -/

/-- C10: disconnecting an identity that has no live connection is a complete
no-op: the whole registry state — live map, counters, metadata (no disconnect
timestamp), queues — is returned unchanged, and the operation is total. -/
theorem disconnect_offline_noop (st : WebSocketManager) (u : String) (now : Nat)
    (h : assocLookup st.connections u = none) :
    st.disconnect u now = st := by
  unfold WebSocketManager.disconnect
  rw [h]
  simp

/-- Witness for C10 at a concrete registry with no entry for the identity. -/
theorem disconnect_offline_noop_witness :
    assocLookup (WebSocketManager.mk [] [] [] [] 0 0 0 0 []).connections "u2" = none ∧
    (WebSocketManager.mk [] [] [] [] 0 0 0 0 []).disconnect "u2" 3 =
      WebSocketManager.mk [] [] [] [] 0 0 0 0 [] :=
  ⟨rfl, disconnect_offline_noop (WebSocketManager.mk [] [] [] [] 0 0 0 0 []) "u2" 3 rfl⟩

/-- C5 counterexample: appending a response whose `message_id` matches no
message of the session succeeds and changes the response list — the claimed
ReferenceError rejection does not exist in `ConversationSession.add_response`. -/
theorem add_response_counterexample :
    ((ConversationSession.new "c1" "u1" "chat" 0).add_response
        {message_id := "no-such-message", agent_type := AgentType.career_advisor,
         response_content := "hi", processing_time := 1} 7).responses ≠
      (ConversationSession.new "c1" "u1" "chat" 0).responses := by
  decide

/-- C5 (amended): `add_response` performs no validation of the referenced
message identifier: for every session and every response it unconditionally
appends the response and refreshes last-activity, leaving messages intact. -/
theorem add_response_unchecked (s : ConversationSession) (r : AgentResponse) (now : Nat) :
    (s.add_response r now).responses = s.responses ++ [r] ∧
    (s.add_response r now).last_activity = now ∧
    (s.add_response r now).messages = s.messages :=
  ⟨rfl, rfl, rfl⟩

theorem foldl_add_response_messages (rs : List (AgentResponse × Nat)) :
    ∀ s : ConversationSession,
      (rs.foldl (fun a p => a.add_response p.1 p.2) s).messages = s.messages := by
  induction rs with
  | nil => intro s; rfl
  | cons p rest ih => intro s; rw [List.foldl_cons, ih]; rfl

theorem foldl_add_message_messages (ms : List (AgentMessage × Nat)) :
    ∀ s : ConversationSession,
      (ms.foldl (fun a p => a.add_message p.1 p.2) s).messages =
        s.messages ++ ms.map Prod.fst := by
  induction ms with
  | nil => intro s; simp
  | cons p rest ih =>
    intro s
    rw [List.foldl_cons, ih]
    simp [ConversationSession.add_message]

/-- C9: after any sequence of `add_message` appends followed by any sequence of
`add_response` appends on a fresh session, `get_messages_by_agent` returns
exactly the appended messages with a matching agent-type tag in append order,
and `get_latest_message` returns the most recently appended message (`none`
for an empty history). -/
theorem session_history_accessors (id u ty : String) (c0 : Nat)
    (ms : List (AgentMessage × Nat)) (rs : List (AgentResponse × Nat)) (t : AgentType) :
    (rs.foldl (fun a p => a.add_response p.1 p.2)
        (ms.foldl (fun a p => a.add_message p.1 p.2)
          (ConversationSession.new id u ty c0))).get_messages_by_agent t =
      (ms.map Prod.fst).filter (fun m => decide (m.agent_type = t)) ∧
    (rs.foldl (fun a p => a.add_response p.1 p.2)
        (ms.foldl (fun a p => a.add_message p.1 p.2)
          (ConversationSession.new id u ty c0))).get_latest_message =
      (ms.map Prod.fst).getLast? := by
  constructor
  · unfold ConversationSession.get_messages_by_agent
    rw [foldl_add_response_messages, foldl_add_message_messages]
    simp [ConversationSession.new]
  · unfold ConversationSession.get_latest_message
    rw [foldl_add_response_messages, foldl_add_message_messages]
    simp [ConversationSession.new]

theorem queueAppend_length_le (q : List Message) (m : Message) (t : Nat) :
    (queueAppend q m t).length ≤ 100 := by
  simp only [queueAppend]
  by_cases h : 100 < (q ++ [{m with queued_at := some t}]).length
  · rw [if_pos h, List.length_drop]
    omega
  · rw [if_neg h]
    omega

theorem queueFold_length_le (appends : List (Message × Nat)) :
    ∀ q : List Message, q.length ≤ 100 →
      (appends.foldl (fun acc p => queueAppend acc p.1 p.2) q).length ≤ 100 := by
  induction appends with
  | nil => intro q h; simpa using h
  | cons p rest ih =>
    intro q h
    rw [List.foldl_cons]
    exact ih _ (queueAppend_length_le _ _ _)

/-- C2: starting from an empty queue, every sequence of appends through the
bounded queue policy keeps the queue at 100 entries or fewer, and an append to
a full queue of exactly 100 entries evicts the oldest entry (FIFO truncation)
while appending the tagged envelope at the newest end. -/
theorem queue_bound_and_fifo_eviction (appends : List (Message × Nat))
    (q : List Message) (m : Message) (t : Nat) (h : q.length = 100) :
    (appends.foldl (fun acc p => queueAppend acc p.1 p.2) ([] : List Message)).length ≤ 100 ∧
    queueAppend q m t = q.drop 1 ++ [{m with queued_at := some t}] := by
  constructor
  · exact queueFold_length_le appends [] (by simp)
  · have hlen : (q ++ [{m with queued_at := some t}]).length = 101 := by simp [h]
    simp only [queueAppend, hlen]
    rw [if_pos (by omega)]
    have h1 : 101 - 100 ≤ q.length := by omega
    rw [show (101 : Nat) - 100 = 1 from rfl]
    exact List.drop_append_of_le_length (by omega)

/-- Witness for C2 at a full queue of 100 concrete entries. -/
theorem queue_bound_and_fifo_eviction_witness :
    (List.replicate 100 ({} : Message)).length = 100 ∧
    (([] : List (Message × Nat)).foldl
        (fun acc p => queueAppend acc p.1 p.2) ([] : List Message)).length ≤ 100 ∧
    queueAppend (List.replicate 100 ({} : Message)) ({} : Message) 3 =
      (List.replicate 100 ({} : Message)).drop 1 ++ [{({} : Message) with queued_at := some 3}] :=
  ⟨by simp, queue_bound_and_fifo_eviction [] (List.replicate 100 {}) {} 3 (by simp)⟩

theorem queueAppend_getLast (q : List Message) (m : Message) (t : Nat) :
    (queueAppend q m t).getLast? = some {m with queued_at := some t} := by
  simp only [queueAppend]
  by_cases h : 100 < (q ++ [{m with queued_at := some t}]).length
  · rw [if_pos h]
    have h2 : (q ++ [{m with queued_at := some t}]).length - 100 ≤ q.length := by
      simp only [List.length_append, List.length_cons, List.length_nil]
      omega
    rw [List.drop_append_of_le_length h2]
    exact List.getLast?_concat _
  · rw [if_neg h]
    exact List.getLast?_concat _

/-- C3: sending to an identity with no live connection is total, reports
`delivered = false`, and leaves the envelope — tagged with a queued-at
timestamp — as the newest entry of that identity's outbound queue. -/
theorem offline_send_queues_newest (st : WebSocketManager) (u : String)
    (m : Message) (now : Nat) (h : assocLookup st.connections u = none) :
    (st.send_message_to_user u m now).2 = false ∧
    ((assocLookup (st.send_message_to_user u m now).1.message_queues u).getD
        []).getLast? = some {m with queued_at := some now} := by
  unfold WebSocketManager.send_message_to_user
  rw [h]
  simp only [Option.isSome_none, Bool.false_eq_true, if_false]
  refine ⟨by trivial, ?_⟩
  unfold WebSocketManager.queue_message_for_user
  simp only [assocLookup_set_self]
  exact queueAppend_getLast _ _ _

/-- Witness for C3 at an empty registry. -/
theorem offline_send_queues_newest_witness :
    assocLookup (WebSocketManager.mk [] [] [] [] 0 0 0 0 []).connections "u7" = none ∧
    (((WebSocketManager.mk [] [] [] [] 0 0 0 0 []).send_message_to_user "u7"
        {mtype := "ping"} 4).2 = false ∧
      ((assocLookup ((WebSocketManager.mk [] [] [] [] 0 0 0 0 []).send_message_to_user "u7"
          {mtype := "ping"} 4).1.message_queues "u7").getD []).getLast? =
        some {({mtype := "ping"} : Message) with queued_at := some 4}) :=
  ⟨rfl, offline_send_queues_newest (WebSocketManager.mk [] [] [] [] 0 0 0 0 [])
    "u7" {mtype := "ping"} 4 rfl⟩

/-! ### Transport-layer helper lemmas -/

theorem sendText_ok (st : WebSocketManager) (u : String) (m : Message) (ws : WS)
    (h : assocLookup st.connections u = some ws)
    (ho : (popScript ws.script).1 = SendOutcome.ok) :
    st.sendText u m =
      ({st with connections := assocSet st.connections u (WS.mk (popScript ws.script).2),
                wire := st.wire ++ [(u, m)]}, SendOutcome.ok) := by
  obtain ⟨s⟩ := ws
  unfold WebSocketManager.sendText
  rw [h]
  cases s with
  | nil => rfl
  | cons o rest =>
    cases o with
    | ok => rfl
    | disconnected => exact absurd ho (by simp [popScript])
    | failure => exact absurd ho (by simp [popScript])

theorem sendText_notok (st : WebSocketManager) (u : String) (m : Message) (ws : WS)
    (h : assocLookup st.connections u = some ws)
    (ho : (popScript ws.script).1 ≠ SendOutcome.ok) :
    st.sendText u m =
      ({st with connections := assocSet st.connections u (WS.mk (popScript ws.script).2)},
       (popScript ws.script).1) := by
  obtain ⟨s⟩ := ws
  unfold WebSocketManager.sendText
  rw [h]
  cases s with
  | nil => exact absurd rfl ho
  | cons o rest =>
    cases o with
    | ok => exact absurd rfl ho
    | disconnected => rfl
    | failure => rfl

theorem disconnect_message_queues (st : WebSocketManager) (u : String) (now : Nat) :
    (st.disconnect u now).message_queues = st.message_queues := by
  obtain ⟨cs, md, mq, cv, tc, ac, ms, mr, w⟩ := st
  unfold WebSocketManager.disconnect
  dsimp only
  split
  · split <;> rfl
  · rfl

theorem disconnect_wire (st : WebSocketManager) (u : String) (now : Nat) :
    (st.disconnect u now).wire = st.wire := by
  obtain ⟨cs, md, mq, cv, tc, ac, ms, mr, w⟩ := st
  unfold WebSocketManager.disconnect
  dsimp only
  split
  · split <;> rfl
  · rfl

theorem disconnect_connections_live (st : WebSocketManager) (u : String) (now : Nat)
    (h : (assocLookup st.connections u).isSome = true) :
    (st.disconnect u now).connections = assocRemove st.connections u := by
  obtain ⟨cs, md, mq, cv, tc, ac, ms, mr, w⟩ := st
  unfold WebSocketManager.disconnect
  dsimp only at h ⊢
  rw [if_pos h]
  split <;> rfl

theorem queue_message_connections (st : WebSocketManager) (u : String) (m : Message)
    (now : Nat) : (st.queue_message_for_user u m now).connections = st.connections := rfl

theorem queue_message_wire (st : WebSocketManager) (u : String) (m : Message)
    (now : Nat) : (st.queue_message_for_user u m now).wire = st.wire := rfl

theorem queue_message_queues (st : WebSocketManager) (u : String) (m : Message)
    (now : Nat) : (st.queue_message_for_user u m now).message_queues =
      assocSet st.message_queues u
        (queueAppend ((assocLookup st.message_queues u).getD []) m now) := rfl

/-- C1 counterexample: dispatching a message carrying the agent-type tag
`unknown_agent` — a tag with no registered handler — does not return a
Response with confidence 0.0: constructing the mock response raises a
pydantic ValidationError past the Router boundary. -/
theorem dispatch_unknown_counterexample :
    AgentCoordinator.route_message_to_agent "unknown_agent"
      {id := "m1", conversation_id := "c1", agent_type := AgentType.career_advisor,
       agent_address := "user", message_type := MessageType.text, content := "hello"} =
      Except.error ("ValidationError: invalid agent_type " ++ "unknown_agent") := by
  rfl

/-- C1 (amended): `route_message_to_agent` never produces a degraded Response
with confidence 0.0: a tag outside the `AgentType` enumeration makes the
dispatch fail with a validation error (raised past the Router boundary), and a
tag inside the enumeration — although no handler is registered either — yields
the hard-coded mock Response whose confidence is 0.85, which is nonzero. -/
theorem dispatch_mock_behavior (bad good : String) (t : AgentType) (msg : AgentMessage)
    (hbad : AgentType.ofString bad = none)
    (hgood : AgentType.ofString good = some t) :
    AgentCoordinator.route_message_to_agent bad msg =
      Except.error ("ValidationError: invalid agent_type " ++ bad) ∧
    AgentCoordinator.route_message_to_agent good msg =
      Except.ok {message_id := msg.id, agent_type := t,
                 response_content := "Mock response from " ++ good,
                 analysis_results := [("mock", "analysis")],
                 action_items := ["Mock action item"],
                 confidence_score := 85 / 100,
                 processing_time := 1 / 2} ∧
    (85 : ℚ) / 100 ≠ 0 := by
  refine ⟨?_, ?_, by norm_num⟩
  · unfold AgentCoordinator.route_message_to_agent
    rw [hbad]
  · unfold AgentCoordinator.route_message_to_agent
    rw [hgood]

/-- Witness for C1 at the concrete tags `nope` (outside the enumeration) and
`skills_analyzer` (inside it). -/
theorem dispatch_mock_behavior_witness :
    AgentType.ofString "nope" = none ∧
    AgentType.ofString "skills_analyzer" = some AgentType.skills_analyzer ∧
    (AgentCoordinator.route_message_to_agent "nope"
        {id := "m2", conversation_id := "c2", agent_type := AgentType.skills_analyzer,
         agent_address := "ws", message_type := MessageType.text, content := "x"} =
        Except.error ("ValidationError: invalid agent_type " ++ "nope") ∧
      AgentCoordinator.route_message_to_agent "skills_analyzer"
        {id := "m2", conversation_id := "c2", agent_type := AgentType.skills_analyzer,
         agent_address := "ws", message_type := MessageType.text, content := "x"} =
        Except.ok {message_id := "m2", agent_type := AgentType.skills_analyzer,
                   response_content := "Mock response from " ++ "skills_analyzer",
                   analysis_results := [("mock", "analysis")],
                   action_items := ["Mock action item"],
                   confidence_score := 85 / 100,
                   processing_time := 1 / 2} ∧
      (85 : ℚ) / 100 ≠ 0) :=
  ⟨rfl, rfl, dispatch_mock_behavior "nope" "skills_analyzer" AgentType.skills_analyzer
    {id := "m2", conversation_id := "c2", agent_type := AgentType.skills_analyzer,
     agent_address := "ws", message_type := MessageType.text, content := "x"} rfl rfl⟩

/-- C7 counterexample: a queued envelope whose delivery fails mid-flush is not
present in the queue afterwards.  Concretely: one queued envelope, a handle
whose first write (the queued-count notice) succeeds and whose second write
(the envelope) raises a generic error; after the flush the queue is empty,
although it held the envelope before. -/
theorem flush_drop_counterexample :
    assocLookup ((WebSocketManager.mk
        [("u1", WS.mk [SendOutcome.ok, SendOutcome.failure])] [] [("u1", [{mtype := "ping"}])]
        [] 1 1 0 0 []).deliver_queued_messages "u1" 5).message_queues "u1" = some [] ∧
    ((assocLookup (WebSocketManager.mk
        [("u1", WS.mk [SendOutcome.ok, SendOutcome.failure])] [] [("u1", [{mtype := "ping"}])]
        [] 1 1 0 0 []).message_queues "u1").getD []).length = 1 := by
  exact ⟨rfl, rfl⟩

/-- C7 (amended): a flush always ends with the identity's queue empty.  An
envelope whose delivery fails with a disconnect-style error is requeued
mid-flush through the bounded-queue policy, and one failing with any other
error is not requeued at all; in either case `_deliver_queued_messages`
unconditionally clears the queue after the loop, so no failed envelope remains
in the queue once the flush completes. -/
theorem flush_clears_queue (st : WebSocketManager) (u : String) (now : Nat)
    (q : List Message) (h : assocLookup st.message_queues u = some q) :
    assocLookup (st.deliver_queued_messages u now).message_queues u = some [] := by
  unfold WebSocketManager.deliver_queued_messages
  rw [h]
  by_cases hq : q = []
  · subst hq
    simpa using h
  · simp only [if_neg hq]
    exact assocLookup_set_self _ _ _

/-- Witness for C7 at a concrete one-envelope queue. -/
theorem flush_clears_queue_witness :
    assocLookup (WebSocketManager.mk [] [] [("u9", [{mtype := "ping"}])] [] 0 0 0 0
        []).message_queues "u9" = some [{mtype := "ping"}] ∧
    assocLookup ((WebSocketManager.mk [] [] [("u9", [{mtype := "ping"}])] [] 0 0 0 0
        []).deliver_queued_messages "u9" 2).message_queues "u9" = some [] :=
  ⟨rfl, flush_clears_queue (WebSocketManager.mk [] [] [("u9", [{mtype := "ping"}])] [] 0 0 0 0 [])
    "u9" 2 [{mtype := "ping"}] rfl⟩

/-- C8 counterexample: a write failure that is not a `WebSocketDisconnect`
does not disconnect the identity and does not queue the in-flight envelope —
the send merely reports `delivered = false`, refuting the claim that every
kind of write failure triggers the implicit-disconnect-and-requeue path. -/
theorem send_generic_failure_counterexample :
    ((WebSocketManager.mk [("u1", WS.mk [SendOutcome.failure])] [] [] [] 1 1 0 0
        []).send_message_to_user "u1" {mtype := "ping"} 5).2 = false ∧
    ((WebSocketManager.mk [("u1", WS.mk [SendOutcome.failure])] [] [] [] 1 1 0 0
        []).send_message_to_user "u1" {mtype := "ping"} 5).1.connections =
      [("u1", WS.mk [])] ∧
    ((WebSocketManager.mk [("u1", WS.mk [SendOutcome.failure])] [] [] [] 1 1 0 0
        []).send_message_to_user "u1" {mtype := "ping"} 5).1.message_queues = [] :=
  ⟨rfl, rfl, rfl⟩

/-- C8 (amended): for an identity with a live connection whose write fails,
only a `WebSocketDisconnect`-kind failure is treated as an implicit disconnect
(the identity leaves the live map) with the stamped in-flight envelope
requeued as the newest queue entry; any other write failure leaves the
identity registered (its handle merely advanced) and queues nothing, with the
send reporting `delivered = false` in both cases. -/
theorem send_write_failure_kinds (st : WebSocketManager) (u : String) (ws : WS)
    (m : Message) (now : Nat)
    (h : assocLookup st.connections u = some ws)
    (hnd : (st.connections.map Prod.fst).Nodup) :
    ((popScript ws.script).1 = SendOutcome.disconnected →
      (st.send_message_to_user u m now).2 = false ∧
      assocLookup (st.send_message_to_user u m now).1.connections u = none ∧
      ((assocLookup (st.send_message_to_user u m now).1.message_queues u).getD
          []).getLast? = some {m with timestamp := some now, queued_at := some now}) ∧
    ((popScript ws.script).1 = SendOutcome.failure →
      (st.send_message_to_user u m now).2 = false ∧
      assocLookup (st.send_message_to_user u m now).1.connections u =
        some (WS.mk (popScript ws.script).2) ∧
      (st.send_message_to_user u m now).1.message_queues = st.message_queues) := by
  have hisSome : (assocLookup st.connections u).isSome = true := by rw [h]; rfl
  constructor
  · intro ho
    have hne : (popScript ws.script).1 ≠ SendOutcome.ok := by
      rw [ho]; intro hc; cases hc
    unfold WebSocketManager.send_message_to_user
    rw [if_pos hisSome]
    dsimp only
    rw [sendText_notok st u _ ws h hne]
    dsimp only
    rw [ho]
    dsimp only
    refine ⟨rfl, ?_, ?_⟩
    · rw [queue_message_connections, disconnect_connections_live _ u now
        (by rw [assocLookup_set_self]; rfl)]
      apply assocRemove_lookup_self
      rw [assocSet_keys _ _ _ hisSome]
      exact hnd
    · rw [queue_message_queues, assocLookup_set_self]
      simp only [Option.getD_some]
      exact queueAppend_getLast _ _ _
  · intro ho
    have hne : (popScript ws.script).1 ≠ SendOutcome.ok := by
      rw [ho]; intro hc; cases hc
    unfold WebSocketManager.send_message_to_user
    rw [if_pos hisSome]
    dsimp only
    rw [sendText_notok st u _ ws h hne]
    dsimp only
    rw [ho]
    dsimp only
    exact ⟨rfl, assocLookup_set_self _ _ _, rfl⟩

/-- Witness for C8 at a concrete one-connection registry whose handle raises a
`WebSocketDisconnect` on its next write. -/
theorem send_write_failure_kinds_witness :
    assocLookup (WebSocketManager.mk [("u1", WS.mk [SendOutcome.disconnected])] [] [] []
        1 1 0 0 []).connections "u1" = some (WS.mk [SendOutcome.disconnected]) ∧
    ((WebSocketManager.mk [("u1", WS.mk [SendOutcome.disconnected])] [] [] []
        1 1 0 0 []).connections.map Prod.fst).Nodup ∧
    (((popScript (WS.mk [SendOutcome.disconnected]).script).1 = SendOutcome.disconnected →
      ((WebSocketManager.mk [("u1", WS.mk [SendOutcome.disconnected])] [] [] []
          1 1 0 0 []).send_message_to_user "u1" {mtype := "ping"} 5).2 = false ∧
      assocLookup ((WebSocketManager.mk [("u1", WS.mk [SendOutcome.disconnected])] [] [] []
          1 1 0 0 []).send_message_to_user "u1"
          {mtype := "ping"} 5).1.connections "u1" = none ∧
      ((assocLookup ((WebSocketManager.mk [("u1", WS.mk [SendOutcome.disconnected])] [] [] []
          1 1 0 0 []).send_message_to_user "u1"
          {mtype := "ping"} 5).1.message_queues "u1").getD []).getLast? =
        some {({mtype := "ping"} : Message) with timestamp := some 5, queued_at := some 5}) ∧
    ((popScript (WS.mk [SendOutcome.disconnected]).script).1 = SendOutcome.failure →
      ((WebSocketManager.mk [("u1", WS.mk [SendOutcome.disconnected])] [] [] []
          1 1 0 0 []).send_message_to_user "u1" {mtype := "ping"} 5).2 = false ∧
      assocLookup ((WebSocketManager.mk [("u1", WS.mk [SendOutcome.disconnected])] [] [] []
          1 1 0 0 []).send_message_to_user "u1"
          {mtype := "ping"} 5).1.connections "u1" =
        some (WS.mk (popScript (WS.mk [SendOutcome.disconnected]).script).2) ∧
      ((WebSocketManager.mk [("u1", WS.mk [SendOutcome.disconnected])] [] [] []
          1 1 0 0 []).send_message_to_user "u1"
          {mtype := "ping"} 5).1.message_queues =
        (WebSocketManager.mk [("u1", WS.mk [SendOutcome.disconnected])] [] [] []
          1 1 0 0 []).message_queues)) :=
  ⟨rfl, by simp, send_write_failure_kinds
    (WebSocketManager.mk [("u1", WS.mk [SendOutcome.disconnected])] [] [] [] 1 1 0 0 [])
    "u1" (WS.mk [SendOutcome.disconnected]) {mtype := "ping"} 5 rfl (by simp)⟩

/-! ### Broadcast lemmas -/

theorem broadcastLoop_cons_excluded (m : Message) (exclude : List String)
    (p : String × WS) (rest : List (String × WS)) (st : WebSocketManager)
    (sent : Nat) (failed : List String) (hex : p.1 ∈ exclude) :
    WebSocketManager.broadcastLoop m exclude (p :: rest) st sent failed =
      WebSocketManager.broadcastLoop m exclude rest st sent failed := by
  simp only [WebSocketManager.broadcastLoop]
  rw [if_pos hex]

theorem broadcastLoop_cons_ok (m : Message) (exclude : List String)
    (p : String × WS) (rest : List (String × WS)) (st : WebSocketManager)
    (sent : Nat) (failed : List String) (hex : p.1 ∉ exclude)
    (hv : (st.sendText p.1 m).2 = SendOutcome.ok) :
    WebSocketManager.broadcastLoop m exclude (p :: rest) st sent failed =
      WebSocketManager.broadcastLoop m exclude rest (st.sendText p.1 m).1
        (sent + 1) failed := by
  simp only [WebSocketManager.broadcastLoop]
  rw [if_neg hex]
  rw [hv]

theorem broadcastLoop_cons_fail (m : Message) (exclude : List String)
    (p : String × WS) (rest : List (String × WS)) (st : WebSocketManager)
    (sent : Nat) (failed : List String) (hex : p.1 ∉ exclude)
    (hv : (st.sendText p.1 m).2 ≠ SendOutcome.ok) :
    WebSocketManager.broadcastLoop m exclude (p :: rest) st sent failed =
      WebSocketManager.broadcastLoop m exclude rest (st.sendText p.1 m).1 sent
        (failed ++ [p.1]) := by
  simp only [WebSocketManager.broadcastLoop]
  rw [if_neg hex]

theorem broadcastLoop_append (m : Message) (exclude : List String)
    (L1 L2 : List (String × WS)) : ∀ (st : WebSocketManager) (sent : Nat)
    (failed : List String),
    WebSocketManager.broadcastLoop m exclude (L1 ++ L2) st sent failed =
      WebSocketManager.broadcastLoop m exclude L2
        (WebSocketManager.broadcastLoop m exclude L1 st sent failed).1
        (WebSocketManager.broadcastLoop m exclude L1 st sent failed).2.1
        (WebSocketManager.broadcastLoop m exclude L1 st sent failed).2.2 := by
  induction L1 with
  | nil => intro st sent failed; rfl
  | cons p rest ih =>
    intro st sent failed
    by_cases hex : p.1 ∈ exclude
    · rw [List.cons_append, broadcastLoop_cons_excluded m exclude p (rest ++ L2) st sent
        failed hex, broadcastLoop_cons_excluded m exclude p rest st sent failed hex, ih]
    · by_cases hv : (st.sendText p.1 m).2 = SendOutcome.ok
      · rw [List.cons_append,
          broadcastLoop_cons_ok m exclude p (rest ++ L2) st sent failed hex hv,
          broadcastLoop_cons_ok m exclude p rest st sent failed hex hv, ih]
      · rw [List.cons_append,
          broadcastLoop_cons_fail m exclude p (rest ++ L2) st sent failed hex hv,
          broadcastLoop_cons_fail m exclude p rest st sent failed hex hv, ih]

theorem broadcastLoop_all_ok (m : Message) (L : List (String × WS)) :
    ∀ (st : WebSocketManager) (sent : Nat) (failed : List String),
      (∀ p ∈ L, assocLookup st.connections p.1 = some p.2 ∧
        (popScript p.2.script).1 = SendOutcome.ok) →
      (L.map Prod.fst).Nodup →
      ∃ stOut, WebSocketManager.broadcastLoop m [] L st sent failed =
          (stOut, sent + L.length, failed) ∧
        stOut.wire = st.wire ++ L.map (fun p => (p.1, m)) ∧
        stOut.connections.map Prod.fst = st.connections.map Prod.fst ∧
        stOut.message_queues = st.message_queues ∧
        (∀ k, k ∉ L.map Prod.fst →
          assocLookup stOut.connections k = assocLookup st.connections k) := by
  induction L with
  | nil =>
    intro st sent failed _ _
    exact ⟨st, rfl, by simp, rfl, rfl, fun k _ => rfl⟩
  | cons p rest ih =>
    intro st sent failed hok hnd
    obtain ⟨hlk, hpo⟩ := hok p (List.mem_cons_self p rest)
    have hsend := sendText_ok st p.1 m p.2 hlk hpo
    have hv : (st.sendText p.1 m).2 = SendOutcome.ok := by rw [hsend]
    have hstep := broadcastLoop_cons_ok m [] p rest st sent failed
      (List.not_mem_nil p.1) hv
    rw [hsend] at hstep
    dsimp only at hstep
    have hnd2 : (p.1 :: rest.map Prod.fst).Nodup := hnd
    have hndr : (rest.map Prod.fst).Nodup := (List.nodup_cons.mp hnd2).2
    have hpnotin : p.1 ∉ rest.map Prod.fst := (List.nodup_cons.mp hnd2).1
    obtain ⟨stOut, heq, hwire, hkeys, hmq, hpres⟩ := ih
      {st with connections := assocSet st.connections p.1 (WS.mk (popScript p.2.script).2),
               wire := st.wire ++ [(p.1, m)]} (sent + 1) failed
      (by
        intro q hq2
        have hqne : q.1 ≠ p.1 := by
          intro he
          exact hpnotin (he ▸ List.mem_map_of_mem Prod.fst hq2)
        obtain ⟨hlq, hpq⟩ := hok q (List.mem_cons_of_mem p hq2)
        refine ⟨?_, hpq⟩
        dsimp only
        rw [assocLookup_set_ne _ _ _ _ hqne]
        exact hlq)
      hndr
    refine ⟨stOut, ?_, ?_, ?_, ?_, ?_⟩
    · rw [hstep, heq]
      have : sent + 1 + rest.length = sent + (p :: rest).length := by
        simp [List.length_cons]
        omega
      rw [this]
    · rw [hwire]
      dsimp only
      simp [List.append_assoc]
    · rw [hkeys]
      dsimp only
      rw [assocSet_keys]
      rw [hlk]
      rfl
    · rw [hmq]
    · intro k hk
      have hkp : k ≠ p.1 := by
        intro he
        exact hk (he ▸ List.mem_cons_self p.1 (rest.map Prod.fst))
      have hkr : k ∉ rest.map Prod.fst := fun hc =>
        hk (List.mem_cons_of_mem p.1 hc)
      rw [hpres k hkr]
      dsimp only
      exact assocLookup_set_ne _ _ _ _ hkp

/-- C6: broadcasting to N live connections where exactly one handle's write
always fails and the rest succeed returns a success count of N-1, removes the
failing identity from the live-connection map (it ends idle), leaves every
other identity live, and delivers the stamped envelope to every other
connection in map order — one peer's failure never blocks the rest. -/
theorem broadcast_partial_failure (st : WebSocketManager) (msg : Message)
    (now : Nat) (A B : List (String × WS)) (ub : String) (wb : WS)
    (hconn : st.connections = A ++ (ub, wb) :: B)
    (hnd : (st.connections.map Prod.fst).Nodup)
    (hAB : ∀ p ∈ A ++ B, (popScript p.2.script).1 = SendOutcome.ok)
    (hb : (popScript wb.script).1 ≠ SendOutcome.ok) :
    (st.broadcast_to_all msg [] now).2 = A.length + B.length ∧
    assocLookup (st.broadcast_to_all msg [] now).1.connections ub = none ∧
    (∀ p ∈ A ++ B,
      (assocLookup (st.broadcast_to_all msg [] now).1.connections p.1).isSome = true) ∧
    (st.broadcast_to_all msg [] now).1.wire =
      st.wire ++
        A.map (fun p => (p.1, ({msg with timestamp := some now, broadcast := true} : Message))) ++
        B.map (fun p => (p.1, ({msg with timestamp := some now, broadcast := true} : Message))) := by
  have hkeys0 : st.connections.map Prod.fst = A.map Prod.fst ++ ub :: B.map Prod.fst := by
    rw [hconn]
    simp
  have hnd0 : (A.map Prod.fst ++ ub :: B.map Prod.fst).Nodup := hkeys0 ▸ hnd
  obtain ⟨hndA, hndUB, hdisj⟩ := List.nodup_append.mp hnd0
  have hubB : ub ∉ B.map Prod.fst := (List.nodup_cons.mp hndUB).1
  have hndB : (B.map Prod.fst).Nodup := (List.nodup_cons.mp hndUB).2
  have hubA : ub ∉ A.map Prod.fst := fun hc => hdisj hc (List.mem_cons_self _ _)
  have hAneq : ∀ p ∈ A, p.1 ≠ ub := fun p hp he =>
    hubA (he ▸ List.mem_map_of_mem Prod.fst hp)
  have hBneq : ∀ p ∈ B, p.1 ≠ ub := fun p hp he =>
    hubB (he ▸ List.mem_map_of_mem Prod.fst hp)
  have hBnotA : ∀ p ∈ B, p.1 ∉ A.map Prod.fst := fun p hp hc =>
    hdisj hc (List.mem_cons_of_mem _ (List.mem_map_of_mem Prod.fst hp))
  have hlkA : ∀ p ∈ A, assocLookup st.connections p.1 = some p.2 := fun p hp =>
    assocLookup_of_mem_nodup _ p hnd (by rw [hconn]; exact List.mem_append_left _ hp)
  have hlkub : assocLookup st.connections ub = some wb :=
    assocLookup_of_mem_nodup st.connections (ub, wb) hnd
      (by rw [hconn]; exact List.mem_append_right _ (List.mem_cons_self _ _))
  have hlkB : ∀ p ∈ B, assocLookup st.connections p.1 = some p.2 := fun p hp =>
    assocLookup_of_mem_nodup _ p hnd
      (by rw [hconn]; exact List.mem_append_right _ (List.mem_cons_of_mem _ hp))
  unfold WebSocketManager.broadcast_to_all
  dsimp only
  generalize hm1 : ({msg with timestamp := some now, broadcast := true} : Message) = m1
  rw [hconn]
  rw [broadcastLoop_append m1 [] A ((ub, wb) :: B)]
  obtain ⟨stA, heqA, hwireA, hkeysA, hmqA, hpresA⟩ :=
    broadcastLoop_all_ok m1 A st 0 []
      (fun p hp => ⟨hlkA p hp, hAB p (List.mem_append_left _ hp)⟩) hndA
  rw [heqA]
  dsimp only
  have hlkubA : assocLookup stA.connections ub = some wb := by
    rw [hpresA ub hubA]
    exact hlkub
  have hsb := sendText_notok stA ub m1 wb hlkubA hb
  have hvb : (stA.sendText ub m1).2 ≠ SendOutcome.ok := by
    rw [hsb]
    exact hb
  rw [broadcastLoop_cons_fail m1 [] (ub, wb) B stA (0 + A.length) []
    (List.not_mem_nil ub) hvb]
  dsimp only
  rw [hsb]
  dsimp only
  have hB2 : ∀ p ∈ B,
      assocLookup ({stA with connections := assocSet stA.connections ub (WS.mk (popScript wb.script).2)} : WebSocketManager).connections p.1 = some p.2 ∧
      (popScript p.2.script).1 = SendOutcome.ok := by
    intro p hp
    refine ⟨?_, hAB p (List.mem_append_right _ hp)⟩
    dsimp only
    rw [assocLookup_set_ne _ _ _ _ (hBneq p hp)]
    rw [hpresA p.1 (hBnotA p hp)]
    exact hlkB p hp
  obtain ⟨stB, heqB, hwireB, hkeysB, hmqB, hpresB⟩ :=
    broadcastLoop_all_ok m1 B
      {stA with connections := assocSet stA.connections ub (WS.mk (popScript wb.script).2)}
      (0 + A.length) ([] ++ [ub]) hB2 hndB
  rw [heqB]
  dsimp only
  rw [List.nil_append, List.foldl_cons, List.foldl_nil]
  have hkeysChain : stB.connections.map Prod.fst = st.connections.map Prod.fst := by
    rw [hkeysB]
    dsimp only
    rw [assocSet_keys _ _ _ (by rw [hlkubA]; rfl), hkeysA]
  have hndB2 : (stB.connections.map Prod.fst).Nodup := by
    rw [hkeysChain]
    exact hnd
  have hubIn : (assocLookup stB.connections ub).isSome = true := by
    rw [assocLookup_isSome_iff, hkeysChain, hkeys0]
    exact List.mem_append_right _ (List.mem_cons_self _ _)
  refine ⟨by omega, ?_, ?_, ?_⟩
  · rw [disconnect_connections_live stB ub now hubIn]
    exact assocRemove_lookup_self _ _ hndB2
  · intro p hp
    rw [disconnect_connections_live stB ub now hubIn]
    have hpneq : p.1 ≠ ub := by
      rcases List.mem_append.mp hp with hpa | hpb
      · exact hAneq p hpa
      · exact hBneq p hpb
    rw [assocRemove_lookup_ne _ _ _ hpneq]
    rw [assocLookup_isSome_iff, hkeysChain, hkeys0]
    rcases List.mem_append.mp hp with hpa | hpb
    · exact List.mem_append_left _ (List.mem_map_of_mem Prod.fst hpa)
    · exact List.mem_append_right _
        (List.mem_cons_of_mem _ (List.mem_map_of_mem Prod.fst hpb))
  · rw [disconnect_wire, hwireB]
    dsimp only
    rw [hwireA]

/-- Witness for C6 at a concrete three-connection registry in which exactly the
middle identity's handle fails its write. -/
theorem broadcast_partial_failure_witness :
    (WebSocketManager.mk [("a", WS.mk []), ("b", WS.mk [SendOutcome.failure]),
        ("c", WS.mk [])] [] [] [] 3 3 0 0 []).connections =
      [("a", WS.mk [])] ++ ("b", WS.mk [SendOutcome.failure]) :: [("c", WS.mk [])] ∧
    ((WebSocketManager.mk [("a", WS.mk []), ("b", WS.mk [SendOutcome.failure]),
        ("c", WS.mk [])] [] [] [] 3 3 0 0 []).connections.map Prod.fst).Nodup ∧
    (∀ p ∈ [("a", WS.mk [])] ++ [("c", WS.mk [])],
      (popScript p.2.script).1 = SendOutcome.ok) ∧
    (popScript (WS.mk [SendOutcome.failure]).script).1 ≠ SendOutcome.ok ∧
    (((WebSocketManager.mk [("a", WS.mk []), ("b", WS.mk [SendOutcome.failure]),
          ("c", WS.mk [])] [] [] [] 3 3 0 0 []).broadcast_to_all {mtype := "news"} [] 7).2 =
        [("a", WS.mk [])].length + [("c", WS.mk [])].length ∧
      assocLookup ((WebSocketManager.mk [("a", WS.mk []), ("b", WS.mk [SendOutcome.failure]),
          ("c", WS.mk [])] [] [] [] 3 3 0 0 []).broadcast_to_all
          {mtype := "news"} [] 7).1.connections "b" = none ∧
      (∀ p ∈ [("a", WS.mk [])] ++ [("c", WS.mk [])],
        (assocLookup ((WebSocketManager.mk [("a", WS.mk []), ("b", WS.mk [SendOutcome.failure]),
            ("c", WS.mk [])] [] [] [] 3 3 0 0 []).broadcast_to_all
            {mtype := "news"} [] 7).1.connections p.1).isSome = true) ∧
      ((WebSocketManager.mk [("a", WS.mk []), ("b", WS.mk [SendOutcome.failure]),
          ("c", WS.mk [])] [] [] [] 3 3 0 0 []).broadcast_to_all
          {mtype := "news"} [] 7).1.wire =
        (WebSocketManager.mk [("a", WS.mk []), ("b", WS.mk [SendOutcome.failure]),
          ("c", WS.mk [])] [] [] [] 3 3 0 0 []).wire ++
          [("a", WS.mk [])].map (fun p => (p.1,
            ({({mtype := "news"} : Message) with timestamp := some 7, broadcast := true} : Message))) ++
          [("c", WS.mk [])].map (fun p => (p.1,
            ({({mtype := "news"} : Message) with timestamp := some 7, broadcast := true} : Message)))) :=
  ⟨rfl, by decide, by decide, by decide,
    broadcast_partial_failure
      (WebSocketManager.mk [("a", WS.mk []), ("b", WS.mk [SendOutcome.failure]),
        ("c", WS.mk [])] [] [] [] 3 3 0 0 [])
      {mtype := "news"} 7 [("a", WS.mk [])] [("c", WS.mk [])] "b"
      (WS.mk [SendOutcome.failure]) rfl (by decide) (by decide) (by decide)⟩

/-! ### Queue-flush lemmas -/

theorem send_ok_allok (st : WebSocketManager) (u : String) (m : Message) (now : Nat)
    (h : assocLookup st.connections u = some (WS.mk [])) :
    (st.send_message_to_user u m now).2 = true ∧
    (st.send_message_to_user u m now).1.wire =
      st.wire ++ [(u, {m with timestamp := some now})] ∧
    (st.send_message_to_user u m now).1.message_queues = st.message_queues ∧
    assocLookup (st.send_message_to_user u m now).1.connections u =
      some (WS.mk []) := by
  have hisSome : (assocLookup st.connections u).isSome = true := by rw [h]; rfl
  unfold WebSocketManager.send_message_to_user
  rw [if_pos hisSome]
  dsimp only
  rw [sendText_ok st u _ (WS.mk []) h rfl]
  dsimp only
  cases hm : assocLookup st.connection_metadata u with
  | none =>
    refine ⟨rfl, rfl, rfl, ?_⟩
    exact assocLookup_set_self _ _ _
  | some meta =>
    refine ⟨rfl, rfl, rfl, ?_⟩
    exact assocLookup_set_self _ _ _

theorem deliverLoop_all_ok (u : String) (now : Nat) (pending : List Message) :
    ∀ (fuel : Nat) (st : WebSocketManager) (aliased : Bool),
      pending.length ≤ fuel →
      assocLookup st.connections u = some (WS.mk []) →
      ∃ st2, WebSocketManager.deliverLoop u now fuel st pending aliased = st2 ∧
        st2.wire = st.wire ++ pending.map
          (fun x => (u, ({x with delivered_from_queue := true, timestamp := some now} : Message))) ∧
        st2.message_queues = st.message_queues ∧
        assocLookup st2.connections u = some (WS.mk []) := by
  induction pending with
  | nil =>
    intro fuel st aliased hf h
    cases fuel with
    | zero => exact ⟨st, rfl, by simp, rfl, h⟩
    | succ f => exact ⟨st, rfl, by simp, rfl, h⟩
  | cons x rest ih =>
    intro fuel st aliased hf h
    cases fuel with
    | zero =>
      exfalso
      simp only [List.length_cons] at hf
      omega
    | succ f =>
      obtain ⟨hs2, hwS, hmqS, hcS⟩ :=
        send_ok_allok st u {x with delivered_from_queue := true} now h
      have hstep : WebSocketManager.deliverLoop u now (f + 1) st (x :: rest) aliased =
          WebSocketManager.deliverLoop u now f
            (st.send_message_to_user u {x with delivered_from_queue := true} now).1
            rest aliased := by
        simp only [WebSocketManager.deliverLoop]
        rw [hmqS]
        rw [if_pos rfl]
      obtain ⟨st2, heq2, hwire2, hmq2, hconn2⟩ := ih f
        (st.send_message_to_user u {x with delivered_from_queue := true} now).1 aliased
        (by simp only [List.length_cons] at hf; omega) hcS
      refine ⟨st2, ?_, ?_, ?_, hconn2⟩
      · rw [hstep, heq2]
      · rw [hwire2, hwS]
        simp [List.append_assoc]
      · rw [hmq2, hmqS]

theorem deliver_flush_ok (st : WebSocketManager) (u : String) (now : Nat)
    (q : List Message)
    (hconn : assocLookup st.connections u = some (WS.mk []))
    (hq : assocLookup st.message_queues u = some q) (hne : q ≠ []) :
    ∃ st2, st.deliver_queued_messages u now = st2 ∧
      st2.wire = st.wire ++
        [(u, ({queuedNotification q.length with mtype := "system_notification", timestamp := some now} : Message))] ++
        q.map (fun x =>
          (u, ({x with delivered_from_queue := true, timestamp := some now} : Message))) ∧
      assocLookup st2.message_queues u = some [] := by
  unfold WebSocketManager.deliver_queued_messages
  rw [hq]
  dsimp only
  rw [if_neg hne]
  unfold WebSocketManager.send_system_notification
  obtain ⟨hs2, hwN, hmqN, hcN⟩ := send_ok_allok st u
    {queuedNotification q.length with mtype := "system_notification"} now hconn
  rw [hmqN, hq]
  dsimp only [Option.getD_some]
  rw [if_pos rfl, if_pos rfl]
  obtain ⟨st2, heq2, hwire2, hmq2, hconn2⟩ := deliverLoop_all_ok u now q
    (q.length + 102)
    (st.send_message_to_user u
      {queuedNotification q.length with mtype := "system_notification"} now).1
    true (by omega) hcN
  rw [heq2]
  refine ⟨_, rfl, ?_, ?_⟩
  · dsimp only
    rw [hwire2, hwN]
  · dsimp only
    exact assocLookup_set_self _ _ _

theorem connect_tail_ok (stX st0 : WebSocketManager) (u : String) (now : Nat)
    (q : List Message)
    (hc : assocLookup stX.connections u = some (WS.mk []))
    (hw : stX.wire = st0.wire)
    (hm : stX.message_queues = st0.message_queues)
    (hq : assocLookup st0.message_queues u = some q) (hne : q ≠ []) :
    ∃ st2, (match (stX.sendText u (welcomeMessage u now)).2 with
        | SendOutcome.ok =>
          Except.ok ((stX.sendText u (welcomeMessage u now)).1.deliver_queued_messages u now)
        | _ => Except.error (stX.sendText u (welcomeMessage u now)).1) = Except.ok st2 ∧
      st2.wire = st0.wire ++
        [(u, welcomeMessage u now),
         (u, ({queuedNotification q.length with mtype := "system_notification", timestamp := some now} : Message))] ++
        q.map (fun x =>
          (u, ({x with delivered_from_queue := true, timestamp := some now} : Message))) ∧
      assocLookup st2.message_queues u = some [] := by
  rw [sendText_ok stX u (welcomeMessage u now) (WS.mk []) hc rfl]
  dsimp only
  obtain ⟨st2, heq, hwire, hmq⟩ := deliver_flush_ok
    {stX with connections := assocSet stX.connections u (WS.mk (popScript (WS.mk []).script).2),
              wire := stX.wire ++ [(u, welcomeMessage u now)]}
    u now q
    (by dsimp only; exact assocLookup_set_self _ _ _)
    (by dsimp only; rw [hm]; exact hq) hne
  rw [heq]
  refine ⟨st2, rfl, ?_, hmq⟩
  rw [hwire]
  dsimp only
  rw [hw]
  simp [List.append_assoc]

/-- C4: for an identity with a non-empty queue (of any length up to the
100-entry bound and beyond), a successful connect on an always-succeeding
handle emits, in order: the welcome frame, exactly one queued-count
notification carrying the queue length, then every previously queued envelope
in original queue order (each flagged as delivered-from-queue and stamped),
and afterwards that identity's queue is empty. -/
theorem connect_flushes_queue (st : WebSocketManager) (u : String) (now : Nat)
    (q : List Message)
    (hq : assocLookup st.message_queues u = some q) (hne : q ≠ []) :
    ∃ st2, st.connect (WS.mk []) u now = Except.ok st2 ∧
      st2.wire = st.wire ++
        [(u, welcomeMessage u now),
         (u, ({queuedNotification q.length with mtype := "system_notification", timestamp := some now} : Message))] ++
        q.map (fun x =>
          (u, ({x with delivered_from_queue := true, timestamp := some now} : Message))) ∧
      assocLookup st2.message_queues u = some [] := by
  unfold WebSocketManager.connect
  dsimp only
  by_cases hcv : (assocLookup st.conversations u).isSome = true
  · rw [if_pos hcv]
    exact connect_tail_ok _ st u now q
      (by dsimp only; exact assocLookup_set_self _ _ _)
      (by dsimp only) (by dsimp only) hq hne
  · rw [if_neg hcv]
    exact connect_tail_ok _ st u now q
      (by dsimp only; exact assocLookup_set_self _ _ _)
      (by dsimp only) (by dsimp only) hq hne

/-- Witness for C4 at a concrete registry holding two queued envelopes for the
reconnecting identity. -/
theorem connect_flushes_queue_witness :
    assocLookup (WebSocketManager.mk [] [] [("u4", [{mtype := "a"}, {mtype := "b"}])]
        [] 0 0 0 0 []).message_queues "u4" = some [{mtype := "a"}, {mtype := "b"}] ∧
    ([{mtype := "a"}, {mtype := "b"}] : List Message) ≠ [] ∧
    ∃ st2, (WebSocketManager.mk [] [] [("u4", [{mtype := "a"}, {mtype := "b"}])]
        [] 0 0 0 0 []).connect (WS.mk []) "u4" 9 = Except.ok st2 ∧
      st2.wire = (WebSocketManager.mk [] [] [("u4", [{mtype := "a"}, {mtype := "b"}])]
          [] 0 0 0 0 []).wire ++
        [("u4", welcomeMessage "u4" 9),
         ("u4", ({queuedNotification ([{mtype := "a"}, {mtype := "b"}] : List Message).length with mtype := "system_notification", timestamp := some 9} : Message))] ++
        ([{mtype := "a"}, {mtype := "b"}] : List Message).map (fun x =>
          ("u4", ({x with delivered_from_queue := true, timestamp := some 9} : Message))) ∧
      assocLookup st2.message_queues "u4" = some [] :=
  ⟨rfl, by decide, connect_flushes_queue
    (WebSocketManager.mk [] [] [("u4", [{mtype := "a"}, {mtype := "b"}])] [] 0 0 0 0 [])
    "u4" 9 [{mtype := "a"}, {mtype := "b"}] rfl (by decide)⟩
